/-
  Verification of the lan-chat server core against its specification.

  Shallow embedding of the Python sources:
    crypto.py   (Diffie-Hellman arithmetic)
    prime.py    (trial-division prefilter and Miller-Rabin test)
    lcsocket.py (packet framing over a byte stream)
    server.py   (dispatcher, command handling, disconnect semantics,
                 discovery responder)

  Python integers are modelled as Nat (all values involved are nonnegative);
  pow(b, e, m) is b ^ e % m.  Randomness (random bases, random keys) is made
  explicit as parameters.  Strings are Lean Strings; the byte stream of the
  framed transport is modelled as List Char.
-/
import Mathlib

namespace LanChat

/-! ## crypto.py -/

/-- crypto.diffie_first_step: `pow(prime_g, secret_key, large_prime_n)`. -/
def diffie_first_step (secret_key large_prime_n prime_g : Nat) : Nat :=
  prime_g ^ secret_key % large_prime_n

/-- crypto.diffie_second_step: `pow(public_key, secret_key, large_prime_n)`. -/
def diffie_second_step (public_key secret_key large_prime_n : Nat) : Nat :=
  public_key ^ secret_key % large_prime_n

/-- C1: shared-secret agreement.  For every modulus n >= 1, generator g and
private keys a and b, `diffie_second_step (diffie_first_step a n g) b n`
equals `diffie_second_step (diffie_first_step b n g) a n`, i.e.
(g^a mod n)^b mod n = (g^b mod n)^a mod n, so both handshake sides derive
the same shared secret in every run. -/
theorem C1_shared_secret_agreement (n g a b : Nat) (h : 1 ≤ n) :
    diffie_second_step (diffie_first_step a n g) b n
      = diffie_second_step (diffie_first_step b n g) a n := by
  unfold diffie_first_step diffie_second_step
  rw [← Nat.pow_mod, ← Nat.pow_mod, ← pow_mul, ← pow_mul, Nat.mul_comm]

/-- Witness for C1 at n = 7, g = 5, a = 3, b = 4. -/
theorem C1_witness :
    1 ≤ 7 ∧ diffie_second_step (diffie_first_step 3 7 5) 4 7
      = diffie_second_step (diffie_first_step 4 7 5) 3 7 :=
  ⟨by decide, C1_shared_secret_agreement 7 5 3 4 (by decide)⟩

/-! ## prime.py -/

/-- The embedded list of small primes of prime.is_low_lvl_prime. -/
def first_primes : List Nat :=
  [2, 3, 5, 7, 11, 13, 17, 19, 23, 29, 31, 37, 41, 43, 47, 53, 59,
   61, 67, 71, 73, 79, 83, 89, 97, 101, 103, 107, 109, 113, 127, 131,
   137, 139, 149, 151, 157, 163, 167, 173, 179, 181, 191, 193, 197,
   199, 211, 223, 227, 229, 233, 239, 241, 251, 257, 263, 269, 271,
   277, 281, 283, 293, 307, 311, 313, 317, 331, 337, 347, 349]

/-- The `for divisor in first_primes` loop of prime.is_low_lvl_prime.
The loop body is
    `if num % divisor == 0: break` followed by `return True`
with the `return True` *inside* the loop body, so the first iteration
always returns: False when the first divisor divides num (break, falling
through to the final `return False`), True otherwise.  An empty divisor
list would fall through to `return False`. -/
def low_lvl_loop (num : Nat) : List Nat → Bool
  | [] => false
  | divisor :: _ => if num % divisor = 0 then false else true

/-- prime.is_low_lvl_prime. -/
def is_low_lvl_prime (num : Nat) : Bool :=
  low_lvl_loop num first_primes

/-- C4 (code bug evaluation): the claim says is_low_lvl_prime returns True
exactly when no prime of `first_primes` divides num.  The code returns
True on 9 although 3 ∈ first_primes divides 9: because `return True` is
indented inside the loop, only divisibility by the first list entry (2) is
ever tested, contradicting the function's own docstring. -/
theorem C4_low_lvl_prime_bug_eval :
    is_low_lvl_prime 9 = true ∧ 3 ∈ first_primes ∧ 9 % 3 = 0 ∧
      is_low_lvl_prime 341 = true ∧ 11 ∈ first_primes ∧ 341 % 11 = 0 := by
  decide

/-- The while loop of prime.is_high_lvl_prime that writes `num - 1` as
`2 ^ max_division_by_two * even_component` with even_component odd,
returned as `(max_division_by_two, even_component)`.  The Python loop
needs no fuel; here the first argument is fuel, and any fuel ≥ m is
enough for m ≥ 1 (the Python code diverges for m = 0, which is
unreachable from its callers since num ≥ 2). -/
def strip_twos : Nat → Nat → Nat × Nat
  | 0, m => (0, m)
  | fuel+1, m =>
    if m % 2 = 0 then
      let r := strip_twos fuel (m / 2)
      (r.1 + 1, r.2)
    else (0, m)

/-- prime.is_high_lvl_prime's inner `trial_composite(round_tester)`:
True when round_tester witnesses that num is composite. -/
def trial_composite (num even_component max_division_by_two round_tester : Nat) : Bool :=
  if round_tester ^ even_component % num == 1 then false
  else if (List.range max_division_by_two).any
      (fun i => round_tester ^ (2 ^ i * even_component) % num == num - 1) then false
  else true

/-- prime.is_high_lvl_prime with the 1024 random draws
`randrange(2, num)` made explicit as the list `bases` (the Python loop
returns False as soon as one base is a compositeness witness, True when
none of the sampled bases is). -/
def is_high_lvl_prime (num : Nat) (bases : List Nat) : Bool :=
  let r := strip_twos num (num - 1)
  ! bases.any (fun round_tester => trial_composite num r.2 r.1 round_tester)

/-- The acceptance check of prime.get_prime_of_size: a candidate is
returned iff it passes is_low_lvl_prime and then is_high_lvl_prime. -/
def accepts (num : Nat) (bases : List Nat) : Bool :=
  is_low_lvl_prime num && is_high_lvl_prime num bases

set_option maxHeartbeats 2000000 in
set_option maxRecDepth 100000 in
/-- No base in [2, p) is a Miller-Rabin compositeness witness for any of
the odd primes in `first_primes` (finite check over all 69 primes and
all bases in range). -/
theorem tc_small_primes_false : ∀ p ∈ first_primes.tail, ∀ b ∈ List.range p, 2 ≤ b →
    trial_composite p (strip_twos p (p-1)).2 (strip_twos p (p-1)).1 b = false := by
  decide

theorem list_any_eq_false {α : Type} {f : α → Bool} :
    ∀ {l : List α}, (∀ x ∈ l, f x = false) → l.any f = false := by
  intro l h
  induction l with
  | nil => rfl
  | cons x xs ih =>
    simp only [List.any_cons, Bool.or_eq_false_iff]
    exact ⟨h x (List.mem_cons_self x xs), ih fun y hy => h y (List.mem_cons_of_mem x hy)⟩

theorem odd_small_low_lvl : ∀ p ∈ first_primes.tail, is_low_lvl_prime p = true := by
  decide

/-- C5 counterexample: the claim says the primality routine (the
acceptance check of get_prime_of_size) returns true for every number in
the standard small-prime list, which starts with 2.  It returns false on
2: `is_low_lvl_prime 2` is false (2 % 2 == 0 breaks the loop), so the
candidate is rejected before Miller-Rabin even runs. -/
theorem C5_counterexample : accepts 2 [] = false ∧ 2 ∈ first_primes := by
  decide

/-- C5 (amended): the routine returns true for every ODD prime of the
standard small-prime list, for every admissible sampling of the
Miller-Rabin bases; it returns false for the prime 2 (rejected by the
prefilter); and it returns false for the composites 341 and 561 whenever
at least one sampled base is a compositeness witness (base 2 is one for
both). -/
theorem C5_small_primes_and_composites :
    (∀ p ∈ first_primes.tail, ∀ bases : List Nat,
        (∀ b ∈ bases, 2 ≤ b ∧ b < p) → accepts p bases = true)
    ∧ (∀ bases : List Nat, accepts 2 bases = false)
    ∧ (∀ bases : List Nat, 2 ∈ bases →
        accepts 341 bases = false ∧ accepts 561 bases = false) := by
  refine ⟨?_, ?_, ?_⟩
  · intro p hp bases hb
    have hlow := odd_small_low_lvl p hp
    have hany : bases.any
        (fun rt => trial_composite p (strip_twos p (p-1)).2 (strip_twos p (p-1)).1 rt)
          = false :=
      list_any_eq_false fun b hbm =>
        tc_small_primes_false p hp b (List.mem_range.mpr (hb b hbm).2) (hb b hbm).1
    simp [accepts, is_high_lvl_prime, hlow, hany]
  · intro bases
    have h2 : is_low_lvl_prime 2 = false := by decide
    simp [accepts, h2]
  · intro bases h2
    constructor
    · have hw : trial_composite 341 (strip_twos 341 340).2 (strip_twos 341 340).1 2
          = true := by decide
      have hany : bases.any
          (fun rt => trial_composite 341 (strip_twos 341 340).2 (strip_twos 341 340).1 rt)
            = true :=
        List.any_eq_true.mpr ⟨2, h2, hw⟩
      simp [accepts, is_high_lvl_prime, hany]
    · have hw : trial_composite 561 (strip_twos 561 560).2 (strip_twos 561 560).1 2
          = true := by decide
      have hany : bases.any
          (fun rt => trial_composite 561 (strip_twos 561 560).2 (strip_twos 561 560).1 rt)
            = true :=
        List.any_eq_true.mpr ⟨2, h2, hw⟩
      simp [accepts, is_high_lvl_prime, hany]

/-- Witness for C5 at concrete inputs: the routine accepts the odd prime 3
with base sampling [2], rejects 2, and rejects 341 and 561 when base 2 is
sampled. -/
theorem C5_witness :
    accepts 3 [2] = true ∧ accepts 2 [] = false
      ∧ accepts 341 [2] = false ∧ accepts 561 [2] = false :=
  ⟨C5_small_primes_and_composites.1 3 (by decide) [2] (by decide),
   C5_small_primes_and_composites.2.1 [],
   (C5_small_primes_and_composites.2.2 [2] (by decide)).1,
   (C5_small_primes_and_composites.2.2 [2] (by decide)).2⟩

/-! ## Transport encryption state (C2)

server.py's ConnectionGetter.setup_encryption and main.py's
setup_encryption call `lcsock.set_encryption_key(symmetrical_key)`, but
the LCSocket class in src/lcsocket.py does not contain that method or any
encryption logic; only its callers are in src/.  The key-holding state of
the transport is therefore modelled from the spec. -/

/-- Modelled from the spec: the encryption state of a Framed Transport
(LCSocket).  `setEncryptionKey(key) installs a symmetric key`; before
that call no key is installed. -/
structure EncState where
  key : Option Nat
deriving DecidableEq

/-- Modelled from the spec: `setEncryptionKey(key): installs a symmetric
key` (LCSocket.set_encryption_key, absent from src/lcsocket.py). -/
def set_encryption_key (s : EncState) (k : Nat) : EncState :=
  { key := some k }

/-- Modelled from the spec: the on-wire form of one outbound payload.
`All sends/receives after this point use the opaque encrypt/decrypt
primitive.  Before this call, payloads are sent/received as plain
serialized structures.`  The DES primitive is the opaque parameter `enc`;
`the low-order 8 bytes of the secret form the block-cipher key`
(crypto.py's encrypt uses key.to_bytes(8, "big")), i.e. key mod 2^64. -/
def wire_send (enc : Nat → String → String) (s : EncState) (payload : String) : String :=
  match s.key with
  | none => payload
  | some k => enc (k % 2 ^ 64) payload

/-- Modelled from the spec: decoding of one inbound frame, the mirror of
wire_send with the opaque decrypt primitive `dec`. -/
def wire_receive (dec : Nat → String → String) (s : EncState) (frame : String) : String :=
  match s.key with
  | none => frame
  | some k => dec (k % 2 ^ 64) frame

/-- server.py ConnectionGetter.setup_encryption, final step: the server
installs `diffie_second_step(other_partial, self._secret_key, self._n)`
as the transport's key. -/
def server_setup_encryption (s : EncState) (n secret_key other_partial : Nat) : EncState :=
  set_encryption_key s (diffie_second_step other_partial secret_key n)

/-- main.py setup_encryption, final step: the client installs
`diffie_second_step(other_public_key, private_key, large_prime_n)` as the
transport's key. -/
def client_setup_encryption (s : EncState) (n private_key other_public_key : Nat) : EncState :=
  set_encryption_key s (diffie_second_step other_public_key private_key n)

/-- C2: after the handshake each side installs its Diffie-Hellman shared
secret as the transport's symmetric key, every packet subsequently sent
or received on that transport goes through the opaque cipher primitive
keyed by the low-order 8 bytes of the secret, and before the key is
installed payloads travel as plain serialized structures.  (The transport
key state is modelled from the spec, src/lcsocket.py lacking it.) -/
theorem C2_encryption_install (enc dec : Nat → String → String)
    (s : EncState) (n g a b : Nat) (payload : String) :
    (wire_send enc { key := none } payload = payload)
    ∧ (wire_receive dec { key := none } payload = payload)
    ∧ ((server_setup_encryption s n a (diffie_first_step b n g)).key
        = some (diffie_second_step (diffie_first_step b n g) a n))
    ∧ ((client_setup_encryption s n b (diffie_first_step a n g)).key
        = some (diffie_second_step (diffie_first_step a n g) b n))
    ∧ (∀ secret, wire_send enc (set_encryption_key s secret) payload
        = enc (secret % 2 ^ 64) payload)
    ∧ (∀ secret, wire_receive dec (set_encryption_key s secret) payload
        = dec (secret % 2 ^ 64) payload) :=
  ⟨rfl, rfl, rfl, rfl, fun _ => rfl, fun _ => rfl⟩

/-! ## lcsocket.py framing (C3)

The byte stream is modelled as List Char.  json.dumps/json.loads are
abstracted away: packets are identified with their serialized strings
(json round-trips, and its output contains no raw CR/LF characters,
which is what the CR-freeness hypotheses below record). -/

/-- lcsocket.SEPARATOR = CRLF * 2. -/
def SEPARATOR : List Char := ['\r', '\n', '\r', '\n']

/-- LCSocket.full_send: the bytes one send appends to the stream,
`json.dumps(data) + SEPARATOR` with the payload already serialized. -/
def full_send_bytes (data : List Char) : List Char := data ++ SEPARATOR

/-- The byte stream produced by a back-to-back sequence of full_send
calls. -/
def sendStream (ps : List (List Char)) : List Char := (ps.map full_send_bytes).flatten

/-- Helper for pySplit: prepend a character to the first piece. -/
def consHead (c : Char) : List (List Char) → List (List Char)
  | [] => [[c]]
  | l :: ls => (c :: l) :: ls

/-- Python's `msg.split(SEPARATOR)`: leftmost-first, non-overlapping
splitting on the four-character separator; always returns at least one
(possibly empty) piece. -/
def pySplit : List Char → List (List Char)
  | '\r' :: '\n' :: '\r' :: '\n' :: rest => [] :: pySplit rest
  | c :: rest => consHead c (pySplit rest)
  | [] => [[]]

/-- The body of LCSocket.full_receive's loop after one `recv` (lines
33-52 of lcsocket.py): split the chunk on SEPARATOR, glue the buffered
partial packet onto the first piece, clear the buffer, keep a nonempty
last piece as the new partial packet, drop the last piece, and return
the completed packets (to be appended to the message queue) together
with the new partial-packet buffer. -/
def stepChunk (buf chunk : List Char) : List (List Char) × List Char :=
  let sp := (pySplit chunk).modifyHead (fun x => buf ++ x)
  let last := sp.getLastD []
  (sp.dropLast, if last ≠ [] then last else [])

/-- LCSocket.full_receive: given the queue, the partial-packet buffer and
the pending network reads (chunks), return the delivered packet and the
successor state; `none` models blocking forever (no queued packet and no
further read).  A queued packet is returned without consuming a chunk. -/
def full_receive : List (List Char) → List Char → List (List Char) →
    Option (List Char × (List (List Char) × List Char × List (List Char)))
  | p :: q, buf, chunks => some (p, (q, buf, chunks))
  | [], _, [] => none
  | [], buf, c :: cs => full_receive (stepChunk buf c).1 (stepChunk buf c).2 cs

/-- Repeated calls to full_receive until it would block: the sequence of
packets the receiver obtains from the given queue, buffer and reads. -/
def drain : List (List Char) → List Char → List (List Char) → List (List Char)
  | p :: q, buf, chunks => p :: drain q buf chunks
  | [], _, [] => []
  | [], buf, c :: cs => drain (stepChunk buf c).1 (stepChunk buf c).2 cs
termination_by q _ chunks => (chunks.length, q.length)

/-- The packets produced by processing every chunk in order (the queue
additions of full_receive), threading the partial-packet buffer. -/
def processAll : List Char → List (List Char) → List (List Char)
  | _, [] => []
  | buf, c :: cs => (stepChunk buf c).1 ++ processAll (stepChunk buf c).2 cs

/-- Interleave SEPARATOR between segments (inverse of pySplit on
separator-free segments). -/
def icSep : List (List Char) → List Char
  | [] => []
  | [a] => a
  | a :: rest => a ++ SEPARATOR ++ icSep rest

/-- Merge the last segment of `s` with the first segment of `g`: the
segment decomposition of the concatenation of two canonical chunks. -/
def joinHead (s g : List (List Char)) : List (List Char) :=
  s.dropLast ++ (s.getLastD [] ++ g.headD []) :: g.tail

/-- The segment decomposition of the concatenation of a list of chunks,
each given by its segments. -/
def glue : List (List (List Char)) → List (List Char)
  | [] => [[]]
  | s :: rest => joinHead s (glue rest)

/-- `S` describes a partition of the byte stream `sendStream ps` into
successive physical reads in which no read boundary falls strictly
inside a SEPARATOR: each chunk is given by its SEPARATOR-free segments
(chunk = icSep segments), and gluing the chunks back together yields
exactly the frame decomposition p1, ..., pk, "" of the stream. -/
def GoodChunking (ps : List (List Char)) (S : List (List (List Char))) : Prop :=
  (∀ s ∈ S, s ≠ [] ∧ ∀ seg ∈ s, ('\r' : Char) ∉ seg) ∧ glue S = ps ++ [[]]

lemma pySplit_cons_of_ne (c : Char) (t : List Char) (hc : c ≠ '\r') :
    pySplit (c :: t) = consHead c (pySplit t) := by
  rw [pySplit.eq_def]
  split
  · next rest heq => simp at heq; exact absurd heq.1 hc
  · next c2 r2 heq => rw [(List.cons.injEq ..).mp heq |>.1, (List.cons.injEq ..).mp heq |>.2]
  · next heq => exact absurd heq (by simp)

lemma pySplit_no_cr : ∀ s : List Char, ('\r' : Char) ∉ s → pySplit s = [s] := by
  intro s
  induction s with
  | nil => intro _; rfl
  | cons c t ih =>
    intro h
    have hc : c ≠ '\r' := fun hh => h (hh ▸ List.mem_cons_self c t)
    have ht : ('\r' : Char) ∉ t := fun hh => h (List.mem_cons_of_mem c hh)
    rw [pySplit_cons_of_ne c t hc, ih ht]
    rfl

lemma pySplit_append_sep : ∀ (p rest : List Char), ('\r' : Char) ∉ p →
    pySplit (p ++ SEPARATOR ++ rest) = p :: pySplit rest := by
  intro p
  induction p with
  | nil => intro rest _; rfl
  | cons c t ih =>
    intro rest h
    have hc : c ≠ '\r' := fun hh => h (hh ▸ List.mem_cons_self c t)
    have ht : ('\r' : Char) ∉ t := fun hh => h (List.mem_cons_of_mem c hh)
    have : (c :: t) ++ SEPARATOR ++ rest = c :: (t ++ SEPARATOR ++ rest) := by simp
    rw [this, pySplit_cons_of_ne _ _ hc, ih rest ht]
    rfl

lemma icSep_cons_of_ne (a : List Char) (L : List (List Char)) (h : L ≠ []) :
    icSep (a :: L) = a ++ SEPARATOR ++ icSep L := by
  cases L with
  | nil => exact absurd rfl h
  | cons b t => rfl

lemma pySplit_icSep : ∀ segs : List (List Char), segs ≠ [] →
    (∀ seg ∈ segs, ('\r' : Char) ∉ seg) → pySplit (icSep segs) = segs := by
  intro segs
  induction segs with
  | nil => intro h _; exact absurd rfl h
  | cons a L ih =>
    intro _ hcr
    cases L with
    | nil => exact pySplit_no_cr a (hcr a (List.mem_cons_self a []))
    | cons b t =>
      rw [icSep_cons_of_ne a (b :: t) (by simp),
        pySplit_append_sep a (icSep (b :: t)) (hcr a (List.mem_cons_self a _)),
        ih (by simp) (fun seg hs => hcr seg (List.mem_cons_of_mem a hs))]

lemma if_ne_nil_id (l : List Char) : (if l ≠ [] then l else []) = l := by
  by_cases h : l = [] <;> simp [h]

lemma stepChunk_segs (buf : List Char) (segs : List (List Char)) (hne : segs ≠ [])
    (hcr : ∀ seg ∈ segs, ('\r' : Char) ∉ seg) :
    stepChunk buf (icSep segs)
      = ((segs.modifyHead (fun x => buf ++ x)).dropLast,
         (segs.modifyHead (fun x => buf ++ x)).getLastD []) := by
  simp only [stepChunk]
  rw [pySplit_icSep segs hne hcr, if_ne_nil_id]

lemma glue_ne_nil : ∀ S, glue S ≠ [] := by
  intro S
  cases S with
  | nil => simp [glue]
  | cons s rest => simp [glue, joinHead]

lemma joinHead_cons_cons (a b : List Char) (t : List (List Char))
    (g : List (List Char)) :
    joinHead (a :: b :: t) g = a :: joinHead (b :: t) g := by
  simp [joinHead, List.getLastD_cons]

lemma dropLast_append_cons {α : Type} : ∀ (l1 : List α) (a : α) (l2 : List α),
    (l1 ++ a :: l2).dropLast = l1 ++ (a :: l2).dropLast := by
  intro l1 a l2
  induction l1 with
  | nil => rfl
  | cons x xs ih =>
    cases h : xs ++ a :: l2 with
    | nil => exact absurd h (by simp)
    | cons y ys => simp [List.dropLast, h, ← ih]

lemma modifyHead_nil_append : ∀ l : List (List Char),
    l.modifyHead (fun x => [] ++ x) = l := by
  intro l
  cases l with
  | nil => rfl
  | cons a t => simp [List.modifyHead]

/-- Processing all chunks of a good chunking produces the frames of the
glued segment decomposition, the buffered partial packet being prepended
to the first. -/
lemma processAll_glue : ∀ (S : List (List (List Char))) (buf : List Char),
    (∀ s ∈ S, s ≠ [] ∧ ∀ seg ∈ s, ('\r' : Char) ∉ seg) →
    processAll buf (S.map icSep) = ((glue S).modifyHead (fun x => buf ++ x)).dropLast := by
  intro S
  induction S with
  | nil => intro buf _; rfl
  | cons s rest ih =>
    intro buf hS
    obtain ⟨hne, hcr⟩ := hS s (List.mem_cons_self s rest)
    have hrest : ∀ s ∈ rest, s ≠ [] ∧ ∀ seg ∈ s, ('\r' : Char) ∉ seg :=
      fun x hx => hS x (List.mem_cons_of_mem s hx)
    obtain ⟨g0, gt, hg⟩ : ∃ g0 gt, glue rest = g0 :: gt := by
      cases h : glue rest with
      | nil => exact absurd h (glue_ne_nil rest)
      | cons g0 gt => exact ⟨g0, gt, rfl⟩
    show (stepChunk buf (icSep s)).1 ++ processAll (stepChunk buf (icSep s)).2 (rest.map icSep)
        = ((glue (s :: rest)).modifyHead (fun x => buf ++ x)).dropLast
    rw [stepChunk_segs buf s hne hcr]
    cases s with
    | nil => exact absurd rfl hne
    | cons a s1 =>
      cases s1 with
      | nil =>
        show ([buf ++ a].dropLast) ++ processAll ([buf ++ a].getLastD []) (rest.map icSep)
            = ((joinHead [a] (glue rest)).modifyHead (fun x => buf ++ x)).dropLast
        have h1 : ([buf ++ a] : List (List Char)).getLastD [] = buf ++ a := rfl
        have h2 : ([buf ++ a] : List (List Char)).dropLast = [] := rfl
        rw [h1, h2, ih (buf ++ a) hrest, hg]
        simp [joinHead, List.modifyHead, List.append_assoc]
      | cons b t =>
        show ((buf ++ a) :: (b :: t).dropLast)
              ++ processAll (((buf ++ a) :: b :: t).getLastD []) (rest.map icSep)
            = ((joinHead (a :: b :: t) (glue rest)).modifyHead (fun x => buf ++ x)).dropLast
        rw [joinHead_cons_cons a b t (glue rest),
          ih (((buf ++ a) :: b :: t).getLastD []) hrest, hg]
        simp only [joinHead, List.modifyHead, List.getLastD_cons, List.headD_cons,
          List.tail_cons]
        rw [← List.cons_append, dropLast_append_cons]

/-- Draining equals: first the queued packets, then those produced by the
pending reads. -/
lemma drain_eq : ∀ (chunks : List (List Char)) (q : List (List Char)) (buf : List Char),
    drain q buf chunks = q ++ processAll buf chunks := by
  intro chunks
  induction chunks with
  | nil =>
    intro q buf
    induction q with
    | nil => simp [drain, processAll]
    | cons p q ihq => simp [drain, ihq, processAll]
  | cons c cs ih =>
    intro q buf
    induction q with
    | nil => simp [drain, ih, processAll]
    | cons p q ihq => simp [drain, ihq]

lemma sendStream_icSep : ∀ ps : List (List Char), sendStream ps = icSep (ps ++ [[]]) := by
  intro ps
  induction ps with
  | nil => rfl
  | cons p t ih =>
    show p ++ SEPARATOR ++ sendStream t = icSep ((p :: t) ++ [[]])
    rw [ih, show (p :: t) ++ [[]] = p :: (t ++ [[]]) from rfl,
      icSep_cons_of_ne p (t ++ [[]]) (by simp)]

lemma icSep_joinHead : ∀ (s g : List (List Char)), s ≠ [] → g ≠ [] →
    icSep (joinHead s g) = icSep s ++ icSep g := by
  intro s
  induction s with
  | nil => intro g h _; exact absurd rfl h
  | cons a s1 ih =>
    intro g _ hg
    obtain ⟨g0, gt, hgeq⟩ : ∃ g0 gt, g = g0 :: gt := by
      cases g with
      | nil => exact absurd rfl hg
      | cons g0 gt => exact ⟨g0, gt, rfl⟩
    cases s1 with
    | nil =>
      subst hgeq
      show icSep ([] ++ (a ++ g0) :: gt) = icSep [a] ++ icSep (g0 :: gt)
      cases gt with
      | nil => rfl
      | cons g1 gt2 =>
        rw [List.nil_append, icSep_cons_of_ne (a ++ g0) (g1 :: gt2) (by simp),
          icSep_cons_of_ne g0 (g1 :: gt2) (by simp)]
        show a ++ g0 ++ SEPARATOR ++ icSep (g1 :: gt2)
            = a ++ (g0 ++ SEPARATOR ++ icSep (g1 :: gt2))
        simp [List.append_assoc]
    | cons b t =>
      rw [joinHead_cons_cons a b t g]
      have hjh : joinHead (b :: t) g ≠ [] := by
        subst hgeq; simp [joinHead]
      rw [icSep_cons_of_ne a (joinHead (b :: t) g) hjh, ih g (by simp) hg,
        icSep_cons_of_ne a (b :: t) (by simp)]
      simp [List.append_assoc]

lemma flatten_map_icSep : ∀ S : List (List (List Char)), (∀ s ∈ S, s ≠ []) →
    (S.map icSep).flatten = icSep (glue S) := by
  intro S
  induction S with
  | nil => intro _; rfl
  | cons s rest ih =>
    intro h
    show icSep s ++ (rest.map icSep).flatten = icSep (joinHead s (glue rest))
    rw [ih (fun x hx => h x (List.mem_cons_of_mem s hx)),
      icSep_joinHead s (glue rest) (h s (List.mem_cons_self s rest)) (glue_ne_nil rest)]

/-- C3 (amended): framing round-trip for every partition of the byte
stream into successive physical reads whose boundaries never fall
strictly inside a delimiter (they may split a packet's bytes): repeated
full_receive returns exactly the sent packet sequence in order; a call
with a buffered complete packet pending returns it without performing a
new network read; and a read containing no delimiter only extends the
buffered trailing partial frame. -/
theorem C3_framing (ps : List (List Char)) (S : List (List (List Char)))
    (h : GoodChunking ps S) :
    ((S.map icSep).flatten = sendStream ps)
    ∧ drain [] [] (S.map icSep) = ps
    ∧ (∀ (p : List Char) (q : List (List Char)) (buf : List Char)
        (chunks : List (List Char)),
        full_receive (p :: q) buf chunks = some (p, (q, buf, chunks)))
    ∧ (∀ (buf c : List Char), ('\r' : Char) ∉ c → stepChunk buf c = ([], buf ++ c)) := by
  obtain ⟨hS, hglue⟩ := h
  refine ⟨?_, ?_, ?_, ?_⟩
  · rw [flatten_map_icSep S (fun s hs => (hS s hs).1), hglue, sendStream_icSep]
  · rw [drain_eq, List.nil_append, processAll_glue S [] hS, hglue, modifyHead_nil_append]
    exact List.dropLast_concat ..
  · intro p q buf chunks; simp [full_receive]
  · intro buf c hc
    unfold stepChunk
    rw [pySplit_no_cr c hc]
    show ([buf ++ c].dropLast, if (buf ++ c) ≠ [] then buf ++ c else []) = ([], buf ++ c)
    rw [if_ne_nil_id]
    rfl

/-- C3 counterexample: the claim as stated also covers partitions that
split a delimiter across two reads.  Sending packets "a" and "b" and
reading the stream as "a\r\n" then "\r\nb\r\n\r\n" (the first delimiter
split in half) makes repeated full_receive deliver the single garbage
packet "a\r\n\r\nb" instead of "a" then "b": the code never re-splits
the buffered partial packet once it is glued onto the next chunk's first
piece. -/
theorem C3_counterexample :
    (['a', '\r', '\n'] ++ ['\r', '\n', 'b', '\r', '\n', '\r', '\n']
        = sendStream [['a'], ['b']])
    ∧ drain [] [] [['a', '\r', '\n'], ['\r', '\n', 'b', '\r', '\n', '\r', '\n']]
        ≠ [['a'], ['b']] := by
  constructor
  · decide
  · rw [drain_eq]
    decide

/-- Witness for C3 on a concrete good chunking: packets ["ab"], read as
"a" then "b\r\n\r\n" (a read splitting the packet's bytes). -/
theorem C3_witness :
    GoodChunking [['a', 'b']] [[['a']], [['b'], []]]
    ∧ drain [] [] ([[['a']], [['b'], []]].map icSep) = [['a', 'b']] :=
  ⟨⟨by decide, by decide⟩,
   (C3_framing [['a', 'b']] [[['a']], [['b'], []]] ⟨by decide, by decide⟩).2.1⟩

/-! ## server.py model -/

/-- A roster entry (server.ClientConnection): its sequentially assigned id
and display name (empty until a CONNECT packet names it). -/
structure Client where
  id : Nat
  name : String
deriving DecidableEq

/-- ClientConnection.is_ready: the name has been set. -/
def is_ready (c : Client) : Bool := c.name ≠ ""

/-- ClientConnection.get_name: "#{id}:{name}". -/
def get_name (c : Client) : String := "#" ++ toString c.id ++ ":" ++ c.name

/-- A packet the server sends: the three mandatory string fields. -/
structure SPacket where
  action : String
  message : String
  source : String
deriving DecidableEq

/-- A received decoded packet: a dictionary of string fields, each of the
three protocol keys possibly absent (dict access raises KeyError). -/
structure RawPacket where
  action? : Option String
  message? : Option String
  source? : Option String
deriving DecidableEq

/-- The Python exceptions that can escape the dispatcher's handler. -/
inductive PyError where
  | indexError
  | noMoreClients
deriving DecidableEq

abbrev Send := Nat × SPacket

/-- Outcome of Server._handle_packet / _handle_command: the packets sent
(recipient id, packet), the roster afterwards, and the escaped exception
if any. -/
structure HResult where
  sends : List Send
  clients : List Client
  error? : Option PyError
deriving DecidableEq

/-- Outcome of Server._disconnect_client: sends performed, roster
afterwards, whether NoMoreClients was raised, and the returned
`disconnected` flag (meaningless when raised, since the raise skips the
return). -/
structure DCResult where
  sends : List Send
  clients : List Client
  raised : Bool
  disconnected : Bool
deriving DecidableEq

/-- Server._send_all_clients: send the packet to every roster member in
order. -/
def send_all (clients : List Client) (p : SPacket) : List Send :=
  clients.map (fun c => (c.id, p))

/-- The client_msg chosen by Server._disconnect_client. -/
def dc_client_msg (disconnect_type : String) : String :=
  if disconnect_type = "kick" then "You were kicked from the room. Press enter to quit."
  else "You have disconnected. Press enter to quit."

/-- msg.format(client.get_name()) of Server._disconnect_client. -/
def dc_notice (disconnect_type : String) (name : String) : String :=
  if disconnect_type = "kick" then name ++ " was kicked." else name ++ " disconnected."

/-- The sends performed while disconnecting one client: the DISCONNECT
packet to the client itself (ClientConnection.disconnect) followed by the
broadcast of the notice to the remaining roster. -/
def dc_sends (sends : List Send) (c : Client) (disconnect_type : String)
    (roster2 : List Client) : List Send :=
  sends ++ [(c.id, ⟨"DISCONNECT", dc_client_msg disconnect_type, "SERVER"⟩)]
    ++ send_all roster2 ⟨"MESSAGE", dc_notice disconnect_type (get_name c), "SERVER"⟩

/-- The `for client in reversed(self._clients)` loop of
Server._disconnect_client: first argument list is the (reversed) iteration
sequence, second the live roster.  A client is disconnected when its id
matches or client_id == 0; after removal NoMoreClients is raised if the
roster emptied (aborting the loop with the sends already performed). -/
def dc_loop (client_id : Nat) (disconnect_type : String) :
    List Client → List Client → List Send → Bool → DCResult
  | [], roster, sends, disc => ⟨sends, roster, false, disc⟩
  | c :: rest, roster, sends, disc =>
    if c.id = client_id ∨ client_id = 0 then
      if roster.erase c = [] then
        ⟨dc_sends sends c disconnect_type (roster.erase c), roster.erase c, true, disc⟩
      else
        dc_loop client_id disconnect_type rest (roster.erase c)
          (dc_sends sends c disconnect_type (roster.erase c)) true
    else dc_loop client_id disconnect_type rest roster sends disc

/-- Server._disconnect_client. -/
def disconnect_client (clients : List Client) (client_id : Nat)
    (disconnect_type : String) : DCResult :=
  dc_loop client_id disconnect_type clients.reverse clients [] false

/-- An ERROR reply from the server. -/
def ERRP (m : String) : SPacket := ⟨"ERROR", m, "SERVER"⟩

/-- The whitespace characters of Python's str.split(). -/
def pyIsSpace (c : Char) : Bool :=
  c == ' ' || c == '\t' || c == '\n' || c == '\r' || c == '\x0b' || c == '\x0c'

/-- Helper for pyWords: split on whitespace runs, dropping empties; the
accumulator holds the current word reversed. -/
def pyWordsAux : List Char → List Char → List (List Char)
  | [], acc => if acc = [] then [] else [acc.reverse]
  | c :: rest, acc =>
    if pyIsSpace c then
      if acc = [] then pyWordsAux rest [] else acc.reverse :: pyWordsAux rest []
    else pyWordsAux rest (c :: acc)

/-- Python's cmd.split() with no argument: split on whitespace runs,
no empty strings in the result. -/
def pyWords (s : String) : List String :=
  (pyWordsAux s.data []).map (fun l => String.mk l)

/-- Python's str.isdigit for ASCII strings: nonempty and all digits. -/
def pyIsDigit (s : String) : Bool :=
  !s.data.isEmpty && s.data.all (fun c => c.isDigit)

/-- Python's int() on a digit string. -/
def pyInt (s : String) : Nat :=
  s.data.foldl (fun a c => a * 10 + (c.toNat - 48)) 0

/-- Server._info_msg (c0 is self._clients[0], whose access raises
IndexError when the roster is empty). -/
def info_msg (host_name : String) (ips : List String) (c0 : Client)
    (clients : List Client) (sender : Client) : String :=
  "Server info:\n"
    ++ "         ---------------------\n"
    ++ "         Server name: " ++ host_name ++ "\n"
    ++ "         Server IPs: " ++ String.intercalate ", " ips ++ "\n"
    ++ "         Host: " ++ get_name c0 ++ "\n"
    ++ "         Connected users: " ++ toString clients.length ++ "\n"
    ++ String.join (clients.map (fun c => "           " ++ get_name c ++ "\n"))
    ++ "         Your username is " ++ get_name sender

/-- Server._help_msg. -/
def help_msg : String :=
  "Help menu:\n         -----------------\n         /info - receive server info\n         /h /help - display help menu\n         /q /quit - disconnect\n         /kick {id} - kick the player with the id"

/-- Server._handle_command.  Branches in source order: empty split, info,
help/h, q/quit, kick (with its error ladder ERR 7/4/6/8/5), unknown
command (ERR 3). -/
def handle_command (host_name : String) (ips : List String) (clients : List Client)
    (sender : Client) (cmd : String) : HResult :=
  if pyWords cmd = [] then ⟨[], clients, none⟩
  else if cmd = "info" then
    match clients with
    | [] => ⟨[], clients, some .indexError⟩
    | c0 :: _ =>
      ⟨[(sender.id, ⟨"MESSAGE", info_msg host_name ips c0 clients sender, "SERVER"⟩)],
       clients, none⟩
  else if cmd = "help" ∨ cmd = "h" then
    ⟨[(sender.id, ⟨"MESSAGE", help_msg, "SERVER"⟩)], clients, none⟩
  else if cmd = "q" ∨ cmd = "quit" then
    ⟨(disconnect_client clients sender.id "disconnect").sends,
     (disconnect_client clients sender.id "disconnect").clients,
     if (disconnect_client clients sender.id "disconnect").raised then
       some .noMoreClients
     else none⟩
  else if (pyWords cmd).headD "" = "kick" then
    if sender.id ≠ 0 then
      ⟨[(sender.id, ERRP "ERR 7: ONLY HOST CAN KICK")], clients, none⟩
    else if (pyWords cmd).length < 2 then
      ⟨[(sender.id, ERRP "ERR 4: MISSING COMMAND TARGET")], clients, none⟩
    else if ¬ pyIsDigit ((pyWords cmd).getD 1 "") then
      ⟨[(sender.id, ERRP "ERR 6: TARGET MUST BE INTEGER")], clients, none⟩
    else if (pyWords cmd).getD 1 "" = "0" then
      ⟨[(sender.id, ERRP "ERR 8: CANNOT KICK HOST")], clients, none⟩
    else if (disconnect_client clients (pyInt ((pyWords cmd).getD 1 "")) "kick").raised then
      ⟨(disconnect_client clients (pyInt ((pyWords cmd).getD 1 "")) "kick").sends,
       (disconnect_client clients (pyInt ((pyWords cmd).getD 1 "")) "kick").clients,
       some .noMoreClients⟩
    else if ¬ (disconnect_client clients (pyInt ((pyWords cmd).getD 1 "")) "kick").disconnected then
      ⟨(disconnect_client clients (pyInt ((pyWords cmd).getD 1 "")) "kick").sends
         ++ [(sender.id, ERRP "ERR 5: COMMAND TARGET DOES NOT EXIST")],
       (disconnect_client clients (pyInt ((pyWords cmd).getD 1 "")) "kick").clients, none⟩
    else
      ⟨(disconnect_client clients (pyInt ((pyWords cmd).getD 1 "")) "kick").sends,
       (disconnect_client clients (pyInt ((pyWords cmd).getD 1 "")) "kick").clients, none⟩
  else
    ⟨[(sender.id, ERRP ("ERR 3: UNKNOWN COMMAND: /" ++ cmd))], clients, none⟩

/-- Server._handle_packet.  KeyError on a missing action or message field
is caught and the packet dropped; MESSAGE from a not-ready sender gets
ERR 1; `msg[0]` raises IndexError on an empty message; a leading / or \\
dispatches to _handle_command; CONNECT with a blank name gets ERR 2,
otherwise set_name and the join broadcast; any other action falls through. -/
def handle_packet (host_name : String) (ips : List String) (clients : List Client)
    (sender : Client) (p : RawPacket) : HResult :=
  match p.action?, p.message? with
  | some action, some msg =>
    if action = "MESSAGE" then
      if ¬ is_ready sender then
        ⟨[(sender.id, ERRP "ERR 1: CANNOT SEND MESSAGE BEFORE FULLY CONNECTED")],
         clients, none⟩
      else
        match msg.data with
        | [] => ⟨[], clients, some .indexError⟩
        | c :: cs =>
          if c = '/' ∨ c = '\\' then
            handle_command host_name ips clients sender (String.mk cs)
          else
            ⟨send_all clients ⟨"MESSAGE", msg, get_name sender⟩, clients, none⟩
    else if action = "CONNECT" then
      if msg = "" then
        ⟨[(sender.id, ERRP "ERR 2: NAME CANNOT BE BLANK")], clients, none⟩
      else
        ⟨send_all
           (clients.map (fun c => if c = sender then { sender with name := msg } else c))
           ⟨"MESSAGE", get_name { sender with name := msg } ++ " has joined.", "SERVER"⟩,
         clients.map (fun c => if c = sender then { sender with name := msg } else c),
         none⟩
    else ⟨[], clients, none⟩
  | _, _ => ⟨[], clients, none⟩

/-- How the dispatcher loop of Server.run can end on a finite event
queue. -/
inductive RunOutcome where
  | finished
  | crashed (e : PyError)
  | starved
deriving DecidableEq

/-- Result of running the dispatcher over a finite queue of
(packet, sender) events. -/
structure RunResult where
  sends : List Send
  clients : List Client
  done : Bool
  outcome : RunOutcome
deriving DecidableEq

/-- Server.run's dispatcher loop over a finite queue: NoMoreClients sets
the done flag and returns (remaining events never processed); any other
exception kills the thread with done still false; an exhausted queue
models the loop blocking on _recv. -/
def server_run (host_name : String) (ips : List String) :
    List Client → List (RawPacket × Client) → RunResult
  | clients, [] => ⟨[], clients, false, .starved⟩
  | clients, (p, sender) :: rest =>
    match (handle_packet host_name ips clients sender p).error? with
    | some .noMoreClients =>
      ⟨(handle_packet host_name ips clients sender p).sends,
       (handle_packet host_name ips clients sender p).clients, true, .finished⟩
    | some e =>
      ⟨(handle_packet host_name ips clients sender p).sends,
       (handle_packet host_name ips clients sender p).clients, false, .crashed e⟩
    | none =>
      ⟨(handle_packet host_name ips clients sender p).sends
         ++ (server_run host_name ips
              (handle_packet host_name ips clients sender p).clients rest).sends,
       (server_run host_name ips
         (handle_packet host_name ips clients sender p).clients rest).clients,
       (server_run host_name ips
         (handle_packet host_name ips clients sender p).clients rest).done,
       (server_run host_name ips
         (handle_packet host_name ips clients sender p).clients rest).outcome⟩

/-- What reply_to_broadcasts observes in one loop iteration: a datagram,
or a recv timeout together with the server's done flag at that moment. -/
inductive RespEvent where
  | timeout (done : Bool)
  | dgram (data : String)
deriving DecidableEq

/-- Whether the discovery responder has exited. -/
inductive RespOutcome where
  | exited
  | running
deriving DecidableEq

/-- Result of the responder loop over a finite event sequence. -/
structure RespResult where
  replies : List String
  socket_closed : Bool
  outcome : RespOutcome
deriving DecidableEq

/-- server.reply_to_broadcasts: answer "lan-chat-find" datagrams with
"lan-chat-found-" ++ name; on a recv timeout check the done flag and, if
set, close the UDP socket and return. -/
def reply_to_broadcasts (name : String) : List RespEvent → RespResult
  | [] => ⟨[], false, .running⟩
  | .dgram data :: rest =>
    let rr := reply_to_broadcasts name rest
    if data = "lan-chat-find" then
      ⟨("lan-chat-found-" ++ name) :: rr.replies, rr.socket_closed, rr.outcome⟩
    else rr
  | .timeout d :: rest =>
    if d then ⟨[], true, .exited⟩
    else reply_to_broadcasts name rest

/-! ### disconnect lemmas -/

lemma dc_loop_noop (cid : Nat) (dt : String) (hcid : cid ≠ 0) :
    ∀ (rev roster : List Client) (sends : List Send) (disc : Bool),
    (∀ c ∈ rev, c.id ≠ cid) →
    dc_loop cid dt rev roster sends disc = ⟨sends, roster, false, disc⟩ := by
  intro rev
  induction rev with
  | nil => intro roster sends disc _; rfl
  | cons c rest ih =>
    intro roster sends disc h
    have hc : c.id ≠ cid := h c (List.mem_cons_self c rest)
    simp only [dc_loop, if_neg (show ¬ (c.id = cid ∨ cid = 0) from by
      rintro (h1 | h1); exact hc h1; exact hcid h1)]
    exact ih roster sends disc (fun x hx => h x (List.mem_cons_of_mem c hx))

lemma disconnect_client_noop (clients : List Client) (cid : Nat) (dt : String)
    (hcid : cid ≠ 0) (h : ∀ c ∈ clients, c.id ≠ cid) :
    disconnect_client clients cid dt = ⟨[], clients, false, false⟩ :=
  dc_loop_noop cid dt hcid clients.reverse clients [] false
    (fun c hc => h c (List.mem_reverse.mp hc))

lemma dc_loop_not_raised (cid : Nat) (dt : String) :
    ∀ (rev roster : List Client) (sends : List Send) (disc : Bool), roster ≠ [] →
    (dc_loop cid dt rev roster sends disc).raised = false →
    (dc_loop cid dt rev roster sends disc).clients ≠ [] := by
  intro rev
  induction rev with
  | nil => intro roster sends disc hne _; exact hne
  | cons c rest ih =>
    intro roster sends disc hne
    by_cases hcond : c.id = cid ∨ cid = 0
    · simp only [dc_loop, if_pos hcond]
      by_cases hr2 : roster.erase c = []
      · simp [hr2]
      · simp only [if_neg hr2]
        exact ih (roster.erase c) _ true hr2
    · simp only [dc_loop, if_neg hcond]
      exact ih roster sends disc hne

lemma disconnect_not_raised (clients : List Client) (cid : Nat) (dt : String)
    (hne : clients ≠ [])
    (h : (disconnect_client clients cid dt).raised = false) :
    (disconnect_client clients cid dt).clients ≠ [] :=
  dc_loop_not_raised cid dt clients.reverse clients [] false hne h

lemma dc_loop_zero (dt : String) :
    ∀ (rev roster : List Client) (sends : List Send) (disc : Bool), rev ≠ [] →
    roster.Perm rev →
    (dc_loop 0 dt rev roster sends disc).clients = []
      ∧ (dc_loop 0 dt rev roster sends disc).raised = true := by
  intro rev
  induction rev with
  | nil => intro roster sends disc h _; exact absurd rfl h
  | cons c rest ih =>
    intro roster sends disc _ hperm
    simp only [dc_loop]
    rw [if_pos (Or.inr (by trivial))]
    have hperm2 : (roster.erase c).Perm rest := by
      have h1 := hperm.erase c
      rwa [List.erase_cons_head] at h1
    by_cases hr2 : roster.erase c = []
    · rw [if_pos hr2]
      exact ⟨hr2, rfl⟩
    · rw [if_neg hr2]
      have hrest : rest ≠ [] := by
        intro hr
        rw [hr] at hperm2
        exact hr2 hperm2.eq_nil
      exact ih (roster.erase c) _ true hrest hperm2

lemma disconnect_client_zero (clients : List Client) (dt : String) (h : clients ≠ []) :
    (disconnect_client clients 0 dt).clients = []
      ∧ (disconnect_client clients 0 dt).raised = true :=
  dc_loop_zero dt clients.reverse clients [] false
    (by simpa using h) (clients.reverse_perm).symm

lemma dc_loop_skip (cid : Nat) (dt : String) (hcid : cid ≠ 0) :
    ∀ (pre rev2 roster : List Client) (sends : List Send) (disc : Bool),
    (∀ c ∈ pre, c.id ≠ cid) →
    dc_loop cid dt (pre ++ rev2) roster sends disc
      = dc_loop cid dt rev2 roster sends disc := by
  intro pre
  induction pre with
  | nil => intro rev2 roster sends disc _; rfl
  | cons c rest ih =>
    intro rev2 roster sends disc h
    have hc : c.id ≠ cid := h c (List.mem_cons_self c rest)
    simp only [List.cons_append, dc_loop, if_neg (show ¬ (c.id = cid ∨ cid = 0) from by
      rintro (h1 | h1); exact hc h1; exact hcid h1)]
    exact ih rev2 roster sends disc (fun x hx => h x (List.mem_cons_of_mem c hx))

lemma filter_ne_id (cid : Nat) : ∀ (l : List Client), (∀ c ∈ l, c.id ≠ cid) →
    l.filter (fun c => c.id != cid) = l := by
  intro l h
  exact List.filter_eq_self.mpr (fun c hc => bne_iff_ne.mpr (h c hc))

lemma disconnect_client_single (clients : List Client) (cid : Nat) (dt : String)
    (hcid : cid ≠ 0) (hnd : (clients.map Client.id).Nodup) :
    (disconnect_client clients cid dt).clients
      = clients.filter (fun c => c.id != cid) := by
  by_cases hex : ∃ m ∈ clients, m.id = cid
  · obtain ⟨m, hm, hmid⟩ := hex
    obtain ⟨xs, ys, rfl⟩ := List.append_of_mem hm
    have hnd2 : ((xs ++ m :: ys).map Client.id).Nodup := hnd
    rw [List.map_append, List.map_cons] at hnd2
    have hnotmem : m.id ∉ xs.map Client.id ++ ys.map Client.id := by
      have := List.nodup_middle.mp hnd2
      exact (List.nodup_cons.mp this).1
    have hxs : ∀ c ∈ xs, c.id ≠ cid := by
      intro c hc he
      exact hnotmem (List.mem_append_left _
        (hmid ▸ he ▸ List.mem_map_of_mem Client.id hc))
    have hys : ∀ c ∈ ys, c.id ≠ cid := by
      intro c hc he
      exact hnotmem (List.mem_append_right _
        (hmid ▸ he ▸ List.mem_map_of_mem Client.id hc))
    have hmxs : m ∉ xs := by
      intro hx
      exact hxs m hx hmid
    have hrev : (xs ++ m :: ys).reverse = ys.reverse ++ m :: xs.reverse := by
      simp
    have herase : (xs ++ m :: ys).erase m = xs ++ ys := by
      rw [List.erase_append_right _ hmxs, List.erase_cons_head]
    have hfilter : (xs ++ m :: ys).filter (fun c => c.id != cid) = xs ++ ys := by
      rw [List.filter_append, List.filter_cons,
        if_neg (by simp [hmid]), filter_ne_id cid xs hxs, filter_ne_id cid ys hys]
    unfold disconnect_client
    rw [hrev, dc_loop_skip cid dt hcid ys.reverse (m :: xs.reverse) _ _ _
      (fun c hc => hys c (List.mem_reverse.mp hc))]
    simp only [dc_loop, if_pos (Or.inl hmid), herase]
    by_cases h0 : xs ++ ys = []
    · rw [if_pos h0, hfilter, h0]
    · rw [if_neg h0,
        dc_loop_noop cid dt hcid xs.reverse (xs ++ ys) _ true
          (fun c hc => hxs c (List.mem_reverse.mp hc)), hfilter]
  · push_neg at hex
    rw [disconnect_client_noop clients cid dt hcid hex, filter_ne_id cid clients hex]

/-! ### dispatcher lemmas -/

lemma hc_clients_empty (hn : String) (ips : List String) (clients : List Client)
    (sender : Client) (cmd : String) (hne : clients ≠ []) :
    (handle_command hn ips clients sender cmd).clients = [] →
    (handle_command hn ips clients sender cmd).error? = some .noMoreClients := by
  unfold handle_command
  by_cases h1 : pyWords cmd = []
  · rw [if_pos h1]; intro h; exact absurd h hne
  rw [if_neg h1]
  by_cases h2 : cmd = "info"
  · rw [if_pos h2]
    cases clients with
    | nil => exact absurd rfl hne
    | cons c0 t => intro h; exact absurd h hne
  rw [if_neg h2]
  by_cases h3 : cmd = "help" ∨ cmd = "h"
  · rw [if_pos h3]; intro h; exact absurd h hne
  rw [if_neg h3]
  by_cases h4 : cmd = "q" ∨ cmd = "quit"
  · rw [if_pos h4]
    cases hbv : (disconnect_client clients sender.id "disconnect").raised with
    | true => intro _; rfl
    | false =>
      intro h
      exact absurd h (disconnect_not_raised clients sender.id "disconnect" hne hbv)
  rw [if_neg h4]
  by_cases h5 : (pyWords cmd).headD "" = "kick"
  · rw [if_pos h5]
    by_cases h6 : sender.id ≠ 0
    · rw [if_pos h6]; intro h; exact absurd h hne
    rw [if_neg h6]
    by_cases h7 : (pyWords cmd).length < 2
    · rw [if_pos h7]; intro h; exact absurd h hne
    rw [if_neg h7]
    by_cases h8 : ¬ pyIsDigit ((pyWords cmd).getD 1 "") = true
    · rw [if_pos h8]; intro h; exact absurd h hne
    rw [if_neg h8]
    by_cases h9 : (pyWords cmd).getD 1 "" = "0"
    · rw [if_pos h9]; intro h; exact absurd h hne
    rw [if_neg h9]
    cases hbv : (disconnect_client clients (pyInt ((pyWords cmd).getD 1 "")) "kick").raised with
    | true => intro _; rfl
    | false =>
      intro h
      have h2 : (if ¬ (disconnect_client clients (pyInt ((pyWords cmd).getD 1 "")) "kick").disconnected = true then
          (⟨(disconnect_client clients (pyInt ((pyWords cmd).getD 1 "")) "kick").sends
             ++ [(sender.id, ERRP "ERR 5: COMMAND TARGET DOES NOT EXIST")],
           (disconnect_client clients (pyInt ((pyWords cmd).getD 1 "")) "kick").clients,
           none⟩ : HResult)
        else
          ⟨(disconnect_client clients (pyInt ((pyWords cmd).getD 1 "")) "kick").sends,
           (disconnect_client clients (pyInt ((pyWords cmd).getD 1 "")) "kick").clients,
           none⟩).clients = [] := h
      have h3 : (disconnect_client clients (pyInt ((pyWords cmd).getD 1 "")) "kick").clients
          = [] := by
        by_cases hd : ¬ (disconnect_client clients
            (pyInt ((pyWords cmd).getD 1 "")) "kick").disconnected = true
        · rw [if_pos hd] at h2; exact h2
        · rw [if_neg hd] at h2; exact h2
      exact absurd h3 (disconnect_not_raised clients _ "kick" hne hbv)
  rw [if_neg h5]
  intro h
  exact absurd h hne

/-- The unfolding of handle_packet when both action and message are
present. -/
lemma handle_packet_some (hn : String) (ips : List String) (clients : List Client)
    (sender : Client) (action msg : String) (ps : Option String) :
    handle_packet hn ips clients sender ⟨some action, some msg, ps⟩
      = if action = "MESSAGE" then
          if ¬ is_ready sender = true then
            ⟨[(sender.id, ERRP "ERR 1: CANNOT SEND MESSAGE BEFORE FULLY CONNECTED")],
             clients, none⟩
          else
            match msg.data with
            | [] => ⟨[], clients, some PyError.indexError⟩
            | c :: cs =>
              if c = '/' ∨ c = '\\' then
                handle_command hn ips clients sender (String.mk cs)
              else
                ⟨send_all clients ⟨"MESSAGE", msg, get_name sender⟩, clients, none⟩
        else if action = "CONNECT" then
          if msg = "" then
            ⟨[(sender.id, ERRP "ERR 2: NAME CANNOT BE BLANK")], clients, none⟩
          else
            ⟨send_all
               (clients.map (fun c => if c = sender then { sender with name := msg } else c))
               ⟨"MESSAGE", get_name { sender with name := msg } ++ " has joined.", "SERVER"⟩,
             clients.map (fun c => if c = sender then { sender with name := msg } else c),
             none⟩
        else ⟨[], clients, none⟩ := rfl

lemma hp_clients_empty (hn : String) (ips : List String) (clients : List Client)
    (sender : Client) (p : RawPacket) (hne : clients ≠ []) :
    (handle_packet hn ips clients sender p).clients = [] →
    (handle_packet hn ips clients sender p).error? = some .noMoreClients := by
  obtain ⟨pa, pm, ps⟩ := p
  cases pa with
  | none => intro h; exact absurd h hne
  | some action =>
    cases pm with
    | none => intro h; exact absurd h hne
    | some msg =>
      rw [handle_packet_some]
      by_cases hA : action = "MESSAGE"
      · rw [if_pos hA]
        by_cases hr : ¬ is_ready sender = true
        · rw [if_pos hr]; intro h; exact absurd h hne
        rw [if_neg hr]
        cases hm : msg.data with
        | nil => intro h; exact absurd h hne
        | cons c cs =>
          show (if c = '/' ∨ c = '\\' then
                handle_command hn ips clients sender (String.mk cs)
              else
                (⟨send_all clients ⟨"MESSAGE", msg, get_name sender⟩, clients,
                  none⟩ : HResult)).clients = [] →
            (if c = '/' ∨ c = '\\' then
                handle_command hn ips clients sender (String.mk cs)
              else
                (⟨send_all clients ⟨"MESSAGE", msg, get_name sender⟩, clients,
                  none⟩ : HResult)).error? = some PyError.noMoreClients
          by_cases hs : c = '/' ∨ c = '\\'
          · rw [if_pos hs]
            exact hc_clients_empty hn ips clients sender (String.mk cs) hne
          · rw [if_neg hs]; intro h; exact absurd h hne
      · rw [if_neg hA]
        by_cases hC : action = "CONNECT"
        · rw [if_pos hC]
          by_cases hm : msg = ""
          · rw [if_pos hm]; intro h; exact absurd h hne
          · rw [if_neg hm]
            intro h
            obtain ⟨a, t, rfl⟩ := List.exists_cons_of_ne_nil hne
            simp at h
        · rw [if_neg hC]; intro h; exact absurd h hne

/-! ### word-splitting lemmas -/

lemma digit_not_space (c : Char) (h : c.isDigit = true) : pyIsSpace c = false := by
  simp only [pyIsSpace, Bool.or_eq_false_iff, beq_eq_false_iff_ne]
  refine ⟨⟨⟨⟨⟨?_, ?_⟩, ?_⟩, ?_⟩, ?_⟩, ?_⟩ <;> (rintro rfl; exact absurd h (by decide))

lemma pyWordsAux_no_space : ∀ (l acc : List Char), (∀ c ∈ l, pyIsSpace c = false) →
    pyWordsAux l acc = if acc.reverse ++ l = [] then [] else [acc.reverse ++ l] := by
  intro l
  induction l with
  | nil =>
    intro acc _
    simp [pyWordsAux, List.reverse_eq_nil_iff]
  | cons c t ih =>
    intro acc h
    have hc : pyIsSpace c = false := h c (List.mem_cons_self c t)
    simp only [pyWordsAux]
    rw [if_neg (by simp [hc])]
    rw [ih (c :: acc) (fun x hx => h x (List.mem_cons_of_mem c hx))]
    simp [List.reverse_cons, List.append_assoc]

lemma pyWords_kick (t : String) (hne : t.data ≠ [])
    (hd : ∀ c ∈ t.data, c.isDigit = true) :
    pyWords ("kick " ++ t) = ["kick", t] := by
  obtain ⟨l⟩ := t
  have hdata : ("kick " ++ String.mk l).data = 'k' :: 'i' :: 'c' :: 'k' :: ' ' :: l := rfl
  show ((pyWordsAux ("kick " ++ String.mk l).data []).map String.mk) = ["kick", String.mk l]
  rw [hdata]
  have h1 : pyWordsAux ('k' :: 'i' :: 'c' :: 'k' :: ' ' :: l) []
      = ['k', 'i', 'c', 'k'] :: pyWordsAux l [] := rfl
  rw [h1, pyWordsAux_no_space l [] (fun c hc => digit_not_space c (hd c hc))]
  rw [if_neg (by simpa using hne)]
  rfl

/-! ### C6: dispatcher crash-safety (code bug) -/

/-- C6 (code bug evaluation): the claim says _handle_packet either
completes normally or raises only NoMoreClients.  A MESSAGE packet whose
message text is the empty string, sent by a ready session, makes
`msg[0]` raise IndexError, which Server.run does not catch: the
dispatcher thread dies with done still false. -/
theorem C6_empty_message_crash :
    (handle_packet "room" [] [⟨0, "alice"⟩] ⟨0, "alice"⟩
        ⟨some "MESSAGE", some "", some "alice"⟩).error? = some .indexError
    ∧ is_ready ⟨0, "alice"⟩ = true
    ∧ server_run "room" [] [⟨0, "alice"⟩]
        [(⟨some "MESSAGE", some "", some "alice"⟩, ⟨0, "alice"⟩)]
      = ⟨[], [⟨0, "alice"⟩], false, .crashed .indexError⟩ := by
  decide

/-! ### C7: malformed-packet drop -/

/-- C7 counterexample: a packet missing only the `source` field is NOT
silently dropped — the dispatcher never reads source, so this CONNECT
renames the session and broadcasts the join notice. -/
theorem C7_counterexample :
    handle_packet "room" [] [⟨0, "alice"⟩] ⟨0, "alice"⟩ ⟨some "CONNECT", some "bob", none⟩
      = ⟨[(0, ⟨"MESSAGE", "#0:bob has joined.", "SERVER"⟩)], [⟨0, "bob"⟩], none⟩ := by
  decide

/-- C7 (amended): a decoded packet missing the action field or the
message field is dropped silently — no reply, no broadcast, roster
unchanged, no exception.  (The source field is never consulted.) -/
theorem C7_missing_action_or_message_dropped (hn : String) (ips : List String)
    (clients : List Client) (sender : Client) (p : RawPacket)
    (h : p.action? = none ∨ p.message? = none) :
    handle_packet hn ips clients sender p = ⟨[], clients, none⟩ := by
  obtain ⟨pa, pm, ps⟩ := p
  cases pa with
  | none => rfl
  | some a =>
    cases pm with
    | none => rfl
    | some m => simp at h

/-- Witness for C7 at a concrete packet with no action field. -/
theorem C7_witness :
    handle_packet "room" [] [⟨0, "alice"⟩] ⟨0, "alice"⟩ ⟨none, some "hi", some "alice"⟩
      = ⟨[], [⟨0, "alice"⟩], none⟩ :=
  C7_missing_action_or_message_dropped "room" [] [⟨0, "alice"⟩] ⟨0, "alice"⟩
    ⟨none, some "hi", some "alice"⟩ (Or.inl rfl)

/-! ### C8: kick-target-missing -/

/-- C8 counterexample: with two sessions connected, the ready non-host
session (id 1) sending "/kick 2" is answered with
"ERR 7: ONLY HOST CAN KICK", not the claimed
"5: COMMAND TARGET DOES NOT EXIST". -/
theorem C8_counterexample :
    (handle_packet "room" [] [⟨0, "a"⟩, ⟨1, "b"⟩] ⟨1, "b"⟩
        ⟨some "MESSAGE", some "/kick 2", some "b"⟩)
      = ⟨[(1, ERRP "ERR 7: ONLY HOST CAN KICK")], [⟨0, "a"⟩, ⟨1, "b"⟩], none⟩
    ∧ (ERRP "ERR 7: ONLY HOST CAN KICK").message
        ≠ "ERR 5: COMMAND TARGET DOES NOT EXIST" := by
  decide

lemma handle_command_kick_missing (hn : String) (ips : List String)
    (clients : List Client) (sender : Client) (t : String)
    (h0 : sender.id = 0) (hdig : pyIsDigit t = true) (ht0 : t ≠ "0")
    (hnz : pyInt t ≠ 0) (hmiss : ∀ c ∈ clients, c.id ≠ pyInt t) :
    handle_command hn ips clients sender ("kick " ++ t)
      = ⟨[(sender.id, ERRP "ERR 5: COMMAND TARGET DOES NOT EXIST")], clients, none⟩ := by
  have hdne : t.data ≠ [] := by
    intro hnil
    simp [pyIsDigit, hnil] at hdig
  have hdall : ∀ c ∈ t.data, c.isDigit = true := by
    have := hdig
    simp only [pyIsDigit, Bool.and_eq_true, List.all_eq_true] at this
    exact fun c hc => this.2 c hc
  have hw := pyWords_kick t hdne hdall
  obtain ⟨l⟩ := t
  have hne_info : ("kick " ++ String.mk l) ≠ "info" := by
    intro heq
    have h2 : 'k' :: 'i' :: 'c' :: 'k' :: ' ' :: l = ['i', 'n', 'f', 'o'] :=
      congrArg String.data heq
    simp at h2
  have hne_help : ¬ (("kick " ++ String.mk l) = "help" ∨ ("kick " ++ String.mk l) = "h") := by
    rintro (heq | heq)
    · have h2 : 'k' :: 'i' :: 'c' :: 'k' :: ' ' :: l = ['h', 'e', 'l', 'p'] :=
        congrArg String.data heq
      simp at h2
    · have h2 : 'k' :: 'i' :: 'c' :: 'k' :: ' ' :: l = ['h'] := congrArg String.data heq
      simp at h2
  have hne_q : ¬ (("kick " ++ String.mk l) = "q" ∨ ("kick " ++ String.mk l) = "quit") := by
    rintro (heq | heq)
    · have h2 : 'k' :: 'i' :: 'c' :: 'k' :: ' ' :: l = ['q'] := congrArg String.data heq
      simp at h2
    · have h2 : 'k' :: 'i' :: 'c' :: 'k' :: ' ' :: l = ['q', 'u', 'i', 't'] :=
        congrArg String.data heq
      simp at h2
  unfold handle_command
  rw [hw]
  rw [if_neg (show ¬ (["kick", String.mk l] = ([] : List String)) from by simp)]
  rw [if_neg hne_info, if_neg hne_help, if_neg hne_q]
  rw [if_pos (show (["kick", String.mk l] : List String).headD "" = "kick" from rfl)]
  rw [if_neg (show ¬ sender.id ≠ 0 from by simp [h0])]
  rw [if_neg (show ¬ (["kick", String.mk l] : List String).length < 2 from by simp)]
  have hg : (["kick", String.mk l] : List String).getD 1 "" = String.mk l := rfl
  rw [hg]
  rw [if_neg (show ¬¬ pyIsDigit (String.mk l) = true from by simp [hdig])]
  rw [if_neg ht0]
  rw [disconnect_client_noop clients (pyInt (String.mk l)) "kick" hnz hmiss]
  simp

/-- C8 (amended): when the ready HOST session (id 0) sends /kick t with
t a numeral of nonzero value other than the literal "0" denoting no
roster member, the server replies to the sender with the ERROR packet
"ERR 5: COMMAND TARGET DOES NOT EXIST" and the roster is unchanged;
a non-host sender instead receives ERR 7 (see the counterexample). -/
theorem C8_kick_target_missing (hn : String) (ips : List String)
    (clients : List Client) (sender : Client) (t src : String)
    (h0 : sender.id = 0) (hready : sender.name ≠ "")
    (hdig : pyIsDigit t = true) (ht0 : t ≠ "0") (hnz : pyInt t ≠ 0)
    (hmiss : ∀ c ∈ clients, c.id ≠ pyInt t) :
    handle_packet hn ips clients sender ⟨some "MESSAGE", some ("/kick " ++ t), some src⟩
      = ⟨[(sender.id, ERRP "ERR 5: COMMAND TARGET DOES NOT EXIST")], clients, none⟩ := by
  have hisr : is_ready sender = true := by simp [is_ready, hready]
  obtain ⟨l⟩ := t
  rw [handle_packet_some, if_pos rfl,
    if_neg (show ¬¬ is_ready sender = true from by simp [hisr])]
  have hd2 : ("/kick " ++ String.mk l).data
      = '/' :: 'k' :: 'i' :: 'c' :: 'k' :: ' ' :: l := rfl
  rw [hd2]
  show handle_command hn ips clients sender ("kick " ++ String.mk l)
      = ⟨[(sender.id, ERRP "ERR 5: COMMAND TARGET DOES NOT EXIST")], clients, none⟩
  exact handle_command_kick_missing hn ips clients sender (String.mk l)
    h0 hdig ht0 hnz hmiss

/-- Witness for C8: host kicks the nonexistent id 2 with two sessions
connected. -/
theorem C8_witness :
    handle_packet "room" [] [⟨0, "a"⟩, ⟨1, "b"⟩] ⟨0, "a"⟩
        ⟨some "MESSAGE", some ("/kick " ++ "2"), some "a"⟩
      = ⟨[(0, ERRP "ERR 5: COMMAND TARGET DOES NOT EXIST")],
         [⟨0, "a"⟩, ⟨1, "b"⟩], none⟩ :=
  C8_kick_target_missing "room" [] [⟨0, "a"⟩, ⟨1, "b"⟩] ⟨0, "a"⟩ "2" "a"
    rfl (by decide) (by decide) (by decide) (by decide) (by decide)

/-! ### C9: empty-roster termination -/

/-- C9: whenever handling a packet empties a non-empty roster (which by
hp_clients_empty means NoMoreClients was raised), the dispatcher loop
sets its done flag and returns, ignoring every queued later event — it
never resumes; and the discovery responder, at the first receive timeout
at which the done flag is observed true, closes its UDP socket and exits
(a timeout with done still false keeps it looping). -/
theorem C9_empty_roster_terminates :
    (∀ (hn : String) (ips : List String) (clients : List Client) (sender : Client)
        (p : RawPacket) (rest : List (RawPacket × Client)),
      clients ≠ [] →
      (handle_packet hn ips clients sender p).clients = [] →
      server_run hn ips clients ((p, sender) :: rest)
        = ⟨(handle_packet hn ips clients sender p).sends, [], true, .finished⟩)
    ∧ (∀ (name : String) (rest : List RespEvent),
        reply_to_broadcasts name (.timeout true :: rest) = ⟨[], true, .exited⟩)
    ∧ (∀ (name : String) (rest : List RespEvent),
        reply_to_broadcasts name (.timeout false :: rest)
          = reply_to_broadcasts name rest) := by
  refine ⟨?_, ?_, ?_⟩
  · intro hn ips clients sender p rest hne hemp
    have herr := hp_clients_empty hn ips clients sender p hne hemp
    simp only [server_run]
    rw [herr, hemp]
  · intro name rest; rfl
  · intro name rest; rfl

/-- Witness for C9: the last session quits, a queued later event is never
processed, and the responder exits at a done-true timeout. -/
theorem C9_witness :
    ([⟨0, "a"⟩] : List Client) ≠ []
    ∧ (handle_packet "room" [] [⟨0, "a"⟩] ⟨0, "a"⟩
        ⟨some "MESSAGE", some "/q", some "a"⟩).clients = []
    ∧ server_run "room" [] [⟨0, "a"⟩]
        [(⟨some "MESSAGE", some "/q", some "a"⟩, ⟨0, "a"⟩),
         (⟨some "MESSAGE", some "never processed", some "a"⟩, ⟨0, "a"⟩)]
      = ⟨(handle_packet "room" [] [⟨0, "a"⟩] ⟨0, "a"⟩
            ⟨some "MESSAGE", some "/q", some "a"⟩).sends, [], true, .finished⟩
    ∧ reply_to_broadcasts "room" [.timeout true, .dgram "lan-chat-find"]
        = ⟨[], true, .exited⟩ :=
  ⟨by decide, by decide,
   C9_empty_roster_terminates.1 "room" [] [⟨0, "a"⟩] ⟨0, "a"⟩
     ⟨some "MESSAGE", some "/q", some "a"⟩
     [(⟨some "MESSAGE", some "never processed", some "a"⟩, ⟨0, "a"⟩)]
     (by decide) (by decide),
   C9_empty_roster_terminates.2.1 "room" [.dgram "lan-chat-find"]⟩

/-! ### C10: disconnect with client_id = 0 -/

/-- C10 counterexample: _disconnect_client(0) is NOT invoked only via
host /q or /quit — the host sending "/kick 00" passes the isdigit and
the textual != "0" guards, int("00") = 0, and every session is kicked:
the roster empties and NoMoreClients escapes. -/
theorem C10_counterexample :
    ((handle_packet "room" [] [⟨0, "a"⟩, ⟨1, "b"⟩] ⟨0, "a"⟩
        ⟨some "MESSAGE", some "/kick 00", some "a"⟩).clients = []
    ∧ (handle_packet "room" [] [⟨0, "a"⟩, ⟨1, "b"⟩] ⟨0, "a"⟩
        ⟨some "MESSAGE", some "/kick 00", some "a"⟩).error? = some .noMoreClients
    ∧ (1, (⟨"DISCONNECT", "You were kicked from the room. Press enter to quit.",
        "SERVER"⟩ : SPacket))
        ∈ (handle_packet "room" [] [⟨0, "a"⟩, ⟨1, "b"⟩] ⟨0, "a"⟩
            ⟨some "MESSAGE", some "/kick 00", some "a"⟩).sends
    ∧ (0, (⟨"DISCONNECT", "You were kicked from the room. Press enter to quit.",
        "SERVER"⟩ : SPacket))
        ∈ (handle_packet "room" [] [⟨0, "a"⟩, ⟨1, "b"⟩] ⟨0, "a"⟩
            ⟨some "MESSAGE", some "/kick 00", some "a"⟩).sends)
    ∧ ("/kick 00" : String) ≠ "/q" ∧ ("/kick 00" : String) ≠ "/quit" := by
  decide

/-- C10 (amended): invoking _disconnect_client with client_id = 0 —
which happens when the host (id 0) issues /q or /quit, and also when the
host issues /kick with a numeral such as "00" whose value is 0 but whose
text differs from "0" — disconnects and removes every session, so a
non-empty roster empties and NoMoreClients is raised; for every other
client_id exactly the sessions bearing that id are removed (with unique
ids, just the one).  The /q glue shows a ready sender's /q invokes the
disconnect with the sender's own id. -/
theorem C10_disconnect_semantics :
    (∀ (clients : List Client) (dt : String), clients ≠ [] →
        (disconnect_client clients 0 dt).clients = []
          ∧ (disconnect_client clients 0 dt).raised = true)
    ∧ (∀ (clients : List Client) (cid : Nat) (dt : String), cid ≠ 0 →
        (clients.map Client.id).Nodup →
        (disconnect_client clients cid dt).clients
          = clients.filter (fun c => c.id != cid))
    ∧ (∀ (hn : String) (ips : List String) (clients : List Client) (sender : Client)
        (src : String), sender.name ≠ "" →
        handle_packet hn ips clients sender ⟨some "MESSAGE", some "/q", some src⟩
          = ⟨(disconnect_client clients sender.id "disconnect").sends,
             (disconnect_client clients sender.id "disconnect").clients,
             if (disconnect_client clients sender.id "disconnect").raised then
               some .noMoreClients
             else none⟩)
    ∧ (∀ (hn : String) (ips : List String) (clients : List Client) (sender : Client)
        (src : String), sender.id = 0 → sender.name ≠ "" → clients ≠ [] →
        handle_packet hn ips clients sender ⟨some "MESSAGE", some "/kick 00", some src⟩
          = ⟨(disconnect_client clients 0 "kick").sends, [], some .noMoreClients⟩) := by
  refine ⟨?_, ?_, ?_, ?_⟩
  · intro clients dt hne
    exact disconnect_client_zero clients dt hne
  · intro clients cid dt hcid hnd
    exact disconnect_client_single clients cid dt hcid hnd
  · intro hn ips clients sender src hready
    have hisr : is_ready sender = true := by simp [is_ready, hready]
    rw [handle_packet_some, if_pos rfl,
      if_neg (show ¬¬ is_ready sender = true from by simp [hisr])]
    have hd2 : ("/q" : String).data = ['/', 'q'] := rfl
    rw [hd2]
    show handle_command hn ips clients sender (String.mk ['q']) = _
    unfold handle_command
    rw [if_neg (show ¬ (pyWords (String.mk ['q']) = []) from by decide)]
    rw [if_neg (show ¬ ((String.mk ['q']) = "info") from by decide)]
    rw [if_neg (show ¬ ((String.mk ['q']) = "help" ∨ (String.mk ['q']) = "h") from by decide)]
    rw [if_pos (show (String.mk ['q']) = "q" ∨ (String.mk ['q']) = "quit" from by decide)]
  · intro hn ips clients sender src h0 hready hne
    have hisr : is_ready sender = true := by simp [is_ready, hready]
    obtain ⟨hc0, hr0⟩ := disconnect_client_zero clients "kick" hne
    rw [handle_packet_some, if_pos rfl,
      if_neg (show ¬¬ is_ready sender = true from by simp [hisr])]
    have hd2 : ("/kick 00" : String).data
        = ['/', 'k', 'i', 'c', 'k', ' ', '0', '0'] := rfl
    rw [hd2]
    show handle_command hn ips clients sender (String.mk ['k', 'i', 'c', 'k', ' ', '0', '0'])
        = ⟨(disconnect_client clients 0 "kick").sends, [], some .noMoreClients⟩
    unfold handle_command
    rw [if_neg (show ¬ (pyWords (String.mk ['k', 'i', 'c', 'k', ' ', '0', '0']) = [])
      from by decide)]
    rw [if_neg (show ¬ ((String.mk ['k', 'i', 'c', 'k', ' ', '0', '0']) = "info")
      from by decide)]
    rw [if_neg (show ¬ ((String.mk ['k', 'i', 'c', 'k', ' ', '0', '0']) = "help"
      ∨ (String.mk ['k', 'i', 'c', 'k', ' ', '0', '0']) = "h") from by decide)]
    rw [if_neg (show ¬ ((String.mk ['k', 'i', 'c', 'k', ' ', '0', '0']) = "q"
      ∨ (String.mk ['k', 'i', 'c', 'k', ' ', '0', '0']) = "quit") from by decide)]
    rw [if_pos (show (pyWords (String.mk ['k', 'i', 'c', 'k', ' ', '0', '0'])).headD ""
      = "kick" from by decide)]
    rw [if_neg (show ¬ sender.id ≠ 0 from by simp [h0])]
    rw [if_neg (show ¬ (pyWords (String.mk ['k', 'i', 'c', 'k', ' ', '0', '0'])).length < 2
      from by decide)]
    rw [if_neg (show ¬¬ pyIsDigit
      ((pyWords (String.mk ['k', 'i', 'c', 'k', ' ', '0', '0'])).getD 1 "") = true
      from by decide)]
    rw [if_neg (show ¬ ((pyWords (String.mk ['k', 'i', 'c', 'k', ' ', '0', '0'])).getD 1 ""
      = "0") from by decide)]
    have hp0 : pyInt ((pyWords (String.mk ['k', 'i', 'c', 'k', ' ', '0', '0'])).getD 1 "")
        = 0 := rfl
    rw [hp0, if_pos hr0, hc0]

/-- Witness for C10 with roster [#0:a, #1:b]: host-quit empties it,
kicking id 1 removes exactly #1:b, and both glue equations at concrete
input. -/
theorem C10_witness :
    ((disconnect_client [⟨0, "a"⟩, ⟨1, "b"⟩] 0 "disconnect").clients = []
      ∧ (disconnect_client [⟨0, "a"⟩, ⟨1, "b"⟩] 0 "disconnect").raised = true)
    ∧ (disconnect_client [⟨0, "a"⟩, ⟨1, "b"⟩] 1 "kick").clients
        = ([⟨0, "a"⟩, ⟨1, "b"⟩] : List Client).filter (fun c => c.id != 1)
    ∧ handle_packet "room" [] [⟨0, "a"⟩, ⟨1, "b"⟩] ⟨0, "a"⟩
        ⟨some "MESSAGE", some "/q", some "a"⟩
      = ⟨(disconnect_client [⟨0, "a"⟩, ⟨1, "b"⟩] 0 "disconnect").sends,
         (disconnect_client [⟨0, "a"⟩, ⟨1, "b"⟩] 0 "disconnect").clients,
         if (disconnect_client [⟨0, "a"⟩, ⟨1, "b"⟩] 0 "disconnect").raised then
           some .noMoreClients
         else none⟩
    ∧ handle_packet "room" [] [⟨0, "a"⟩, ⟨1, "b"⟩] ⟨0, "a"⟩
        ⟨some "MESSAGE", some "/kick 00", some "a"⟩
      = ⟨(disconnect_client [⟨0, "a"⟩, ⟨1, "b"⟩] 0 "kick").sends, [],
         some .noMoreClients⟩ :=
  ⟨C10_disconnect_semantics.1 [⟨0, "a"⟩, ⟨1, "b"⟩] "disconnect" (by decide),
   C10_disconnect_semantics.2.1 [⟨0, "a"⟩, ⟨1, "b"⟩] 1 "kick" (by decide) (by decide),
   C10_disconnect_semantics.2.2.1 "room" [] [⟨0, "a"⟩, ⟨1, "b"⟩] ⟨0, "a"⟩ "a" (by decide),
   C10_disconnect_semantics.2.2.2 "room" [] [⟨0, "a"⟩, ⟨1, "b"⟩] ⟨0, "a"⟩ "a"
     rfl (by decide) (by decide)⟩

end LanChat
